import Mathlib

/-
Verification of the metric-extraction and ratio-computation engine of the
ai-finance-copilot repository (src/financial_analysis.py).

The embedding models a pandas DataFrame as a period index plus an ordered
list of named columns of cells.  Cell values that pandas to_numeric would
coerce to NaN are modelled by the nonNum constructor; a NaN produced during
a computation is modelled by the value none of Option Rat, and arithmetic
on such values propagates none the way IEEE arithmetic propagates NaN.
Exception handlers in the Python source are modelled by explicit fault
flags: a fault flag set to true means some operation inside the guarded
try block raised, and the embedding then returns exactly what the except
clause of the source returns.
-/

namespace FinAnalysis

/-- A table cell after loading: either a numeric value, or a non-numeric
entry (malformed string, missing datum) that pandas to_numeric coerces
to NaN. -/
inductive CellVal where
  | num (q : ℚ)
  | nonNum
deriving DecidableEq, Repr

/-- pandas to_numeric applied to one cell with coercion of errors: numeric
cells keep their value and every other cell becomes NaN (modelled none). -/
def toNumeric : CellVal → Option ℚ
  | .num q => some q
  | .nonNum => none

/-- A financial table: a reporting-period index (position 0 is the most
recent period, as stored by the data loader) and ordered named columns. -/
structure DataFrame where
  index : List Int
  cols : List (String × List CellVal)
deriving DecidableEq, Repr

/-- Column names of a table, in stored order. -/
def DataFrame.columns (df : DataFrame) : List String := df.cols.map Prod.fst

/-- Exact, case-sensitive membership test of a name among the columns,
the test the source performs with the Python expression
variation in df.columns. -/
def DataFrame.hasCol (df : DataFrame) (name : String) : Bool :=
  df.columns.contains name

/-- The cell list of a named column (first column with that name). -/
def DataFrame.getCol (df : DataFrame) (name : String) : List CellVal :=
  (df.cols.lookup name).getD []

/-- Subtraction where none models NaN: any NaN operand yields NaN. -/
def nanSub : Option ℚ → Option ℚ → Option ℚ
  | some a, some b => some (a - b)
  | _, _ => none

/-- Absolute value where none models NaN. -/
def nanAbs : Option ℚ → Option ℚ
  | some a => some |a|
  | none => none

/-- Division where none models NaN.  The source only divides under a
guard that rules out a zero divisor, so the zero-divisor case is
unreachable there. -/
def nanDiv : Option ℚ → Option ℚ → Option ℚ
  | some a, some b => some (a / b)
  | _, _ => none

/-- Multiplication where none models NaN. -/
def nanMul : Option ℚ → Option ℚ → Option ℚ
  | some a, some b => some (a * b)
  | _, _ => none

/-- The Python comparison previous != 0 on a float that may be NaN:
NaN compares unequal to zero, so the test is true for NaN. -/
def nanNeZero : Option ℚ → Bool
  | some a => if a = 0 then false else true
  | none => true

/-- Synonym table of the growth-rate helper in the source
(metric_variations inside the growth-rate method). -/
def growth_metric_variations : List (String × List String) :=
  [("Revenue", ["revenue", "totalRevenue"]),
   ("Net Income", ["netIncome"]),
   ("Total Assets", ["totalAssets"])]

/-- Column chosen by the growth-rate helper: the source indexes the
variation list at position 0 and never looks at later variations. -/
def growthCol (metric : String) : Option String :=
  ((growth_metric_variations.lookup metric).getD [metric.toLower]).head?

/-- Embedding of the private growth-rate helper of FinancialAnalysis.
The source selects element 0 of the variation list, requires that name to
be exactly (case-sensitively) a column, coerces the whole column with
to_numeric, and when at least two periods exist and the previous value
compares unequal to zero returns ((current - previous) / abs(previous)) * 100
from positions 0 and 1; every other path returns 0.0.  A NaN entry
propagates through the arithmetic and the comparison as in the source. -/
def get_growth_rate (income balance : DataFrame) (metric : String)
    (is_balance_sheet : Bool) : Option ℚ :=
  let df := if is_balance_sheet then balance else income
  match growthCol metric with
  | none => some 0
  | some col_name =>
    if df.hasCol col_name then
      let values := (df.getCol col_name).map toNumeric
      match values with
      | current :: previous :: _ =>
        if nanNeZero previous then
          nanMul (nanDiv (nanSub current previous) (nanAbs previous)) (some 100)
        else some 0
      | _ => some 0
    else some 0

/-- Synonym table of the latest-value helper in the source
(metric_variations inside the latest-value method, duplicate entry for
netIncome included as written). -/
def latest_metric_variations : List (String × List String) :=
  [("Revenue", ["revenue", "totalRevenue"]),
   ("Net Income", ["netIncome", "netIncome"]),
   ("Total Assets", ["totalAssets"]),
   ("Total Equity", ["totalEquity", "totalStockholdersEquity"]),
   ("Total Current Assets", ["totalCurrentAssets"]),
   ("Total Current Liabilities", ["totalCurrentLiabilities"]),
   ("Total Liabilities", ["totalLiabilities"])]

/-- Variation list the latest-value helper uses for a metric: the table
entry, or the single-element list of the lowercased metric name. -/
def latestVariations (metric : String) : List String :=
  (latest_metric_variations.lookup metric).getD [metric.toLower]

/-- Column-resolution loop shared by the latest-value and trend helpers:
the first variation, in list order, that is exactly (case-sensitively) a
column name of the table; none when no variation is a column name. -/
def resolveColumn (df : DataFrame) (variations : List String) : Option String :=
  variations.find? (fun v => df.hasCol v)

/-- Embedding of the private latest-value helper of FinancialAnalysis.
Resolution walks the variation list with exact membership tests; on
failure the 0.0 sentinel is returned.  On success the cell at index
position 0 is coerced with to_numeric; an NaN result (isna) or an empty
column (IndexError, caught by the handler) also yields 0.0. -/
def get_latest_value (income balance : DataFrame) (metric : String)
    (is_balance_sheet : Bool) : ℚ :=
  let df := if is_balance_sheet then balance else income
  match resolveColumn df (latestVariations metric) with
  | none => 0
  | some col_name =>
    match (df.getCol col_name).head? with
    | none => 0
    | some cell =>
      match toNumeric cell with
      | none => 0
      | some v => v

/-- Exception handler of the latest-value helper: when any operation in
the try body raises (abstracted by the fault flag) the except clause
returns the 0.0 sentinel; otherwise the body runs. -/
def get_latest_value_caught (income balance : DataFrame) (metric : String)
    (is_balance_sheet fault : Bool) : ℚ :=
  if fault then 0 else get_latest_value income balance metric is_balance_sheet

/-- Synonym table of get_trend_data in the source. -/
def trend_metric_variations : List (String × List String) :=
  [("Revenue", ["revenue", "totalRevenue"]),
   ("Net Income", ["netIncome"]),
   ("Total Assets", ["totalAssets"]),
   ("Total Equity", ["totalEquity", "totalStockholdersEquity"])]

/-- Balance-sheet test of get_trend_data: the metric is read from the
balance sheet exactly when it is Total Assets or Total Equity. -/
def is_balance_metric (m : String) : Bool :=
  m == "Total Assets" || m == "Total Equity"

/-- A trend series as get_trend_data stores it: the period index of the
table it came from and the coerced values, both in stored row order. -/
structure TrendSeries where
  index : List Int
  values : List (Option ℚ)
deriving DecidableEq, Repr

/-- Embedding of get_trend_data.  Iterates the requested metrics in
order; for each, picks the table, resolves the column with exact
membership over the trend synonym table, checks Python truthiness of the
resolved name, coerces the column, and stores the series only when it is
non-empty and not entirely NaN.  A metric whose iteration raises
(abstracted by fault) is skipped by the per-metric except clause.
Metrics that fail any check are simply not added to the mapping. -/
def get_trend_data (income balance : DataFrame) (metrics : List String)
    (fault : String → Bool) : List (String × TrendSeries) :=
  metrics.foldl (fun trend_data metric =>
    if fault metric then trend_data
    else
      let df := if is_balance_metric metric then balance else income
      match resolveColumn df
          ((trend_metric_variations.lookup metric).getD [metric.toLower]) with
      | some col_name =>
        if col_name = "" then trend_data
        else
          let series := (df.getCol col_name).map toNumeric
          if (!series.isEmpty) && (!(series.all fun v => v.isNone)) then
            trend_data ++ [(metric, ⟨df.index, series⟩)]
          else trend_data
      | none => trend_data) []

/-- Round-half-to-even on a rational, the tie rule of the Python built-in
round (the idealisation over exact rationals; the source rounds binary
floats, whose representation noise is out of scope here and irrelevant to
the non-tie values the claims exercise). -/
def round_half_even (q : ℚ) : ℤ :=
  let f := ⌊q⌋
  if q - f < 1/2 then f
  else if q - f > 1/2 then f + 1
  else if f % 2 = 0 then f else f + 1

/-- Python round(x, 2) on the idealised rational value. -/
def round2 (q : ℚ) : ℚ := (round_half_even (q * 100) : ℚ) / 100

/-- Embedding of calculate_profitability_ratios.  The fault flag abstracts
an exception raised anywhere inside the try body; the except clause then
returns the zero-filled default mapping written in the source.  Otherwise
the four inputs are extracted, each ratio is guarded against a zero
denominator, and the three results are rounded to two decimals. -/
def calculate_profitability (income balance : DataFrame) (fault : Bool) :
    List (String × ℚ) :=
  if fault then
    [("Profit Margin", 0), ("Return On Assets", 0), ("Return On Equity", 0)]
  else
    let revenue := get_latest_value income balance "Revenue" false
    let net_income := get_latest_value income balance "Net Income" false
    let total_assets := get_latest_value income balance "Total Assets" true
    let total_equity := get_latest_value income balance "Total Equity" true
    let profit_margin := if revenue ≠ 0 then net_income / revenue * 100 else 0
    let roa := if total_assets ≠ 0 then net_income / total_assets * 100 else 0
    let roe := if total_equity ≠ 0 then net_income / total_equity * 100 else 0
    [("Profit Margin", round2 profit_margin),
     ("Return On Assets", round2 roa),
     ("Return On Equity", round2 roe)]

/-- Embedding of calculate_liquidity_ratios, with the same fault
abstraction: on a fault the except clause returns the zero-filled default
mapping of the source; otherwise both ratios are computed with the
zero-denominator guard and rounded to two decimals. -/
def calculate_liquidity (income balance : DataFrame) (fault : Bool) :
    List (String × ℚ) :=
  if fault then
    [("Current Ratio", 0), ("Debt To Equity", 0)]
  else
    let current_assets := get_latest_value income balance "Total Current Assets" true
    let current_liabilities := get_latest_value income balance "Total Current Liabilities" true
    let total_liabilities := get_latest_value income balance "Total Liabilities" true
    let total_equity := get_latest_value income balance "Total Equity" true
    let current_ratio :=
      if current_liabilities ≠ 0 then current_assets / current_liabilities else 0
    let debt_to_equity :=
      if total_equity ≠ 0 then total_liabilities / total_equity else 0
    [("Current Ratio", round2 current_ratio),
     ("Debt To Equity", round2 debt_to_equity)]

/-- The three-category result dictionary returned by analyze.  Growth-rate
values carry Option so that a NaN produced by the growth helper (none)
is representable; the profitability and liquidity helpers never produce
NaN. -/
structure AnalyzeResult where
  growthRates : List (String × Option ℚ)
  profitability : List (String × ℚ)
  liquidity : List (String × ℚ)
deriving DecidableEq, Repr

/-- Embedding of analyze.  The top-level fault flag abstracts an
exception escaping anywhere inside the analyze try body (the category
helpers catch their own exceptions, abstracted by their flags); the
top-level except clause returns three empty mappings at once.  Otherwise
the three categories are assembled; growth rates are stored exactly as
the growth helper returns them, without rounding.  The visualization
calls of the source (trend data feeding a chart file) do not contribute
to the returned dictionary. -/
def analyze (income balance : DataFrame)
    (prof_fault liq_fault top_fault : Bool) : AnalyzeResult :=
  if top_fault then ⟨[], [], []⟩
  else
    { growthRates :=
        [("Revenue Growth", get_growth_rate income balance "Revenue" false),
         ("Net Income Growth", get_growth_rate income balance "Net Income" false),
         ("Asset Growth", get_growth_rate income balance "Total Assets" true)],
      profitability := calculate_profitability income balance prof_fault,
      liquidity := calculate_liquidity income balance liq_fault }

/-- The object state of a FinancialAnalysis instance: the two tables the
constructor stores. -/
structure FAState where
  income_stmt : DataFrame
  balance_sheet : DataFrame
deriving DecidableEq, Repr

/-- State-passing form of the latest-value helper: the method reads the
stored tables and assigns to no attribute, so the state it hands back is
the state it received. -/
def get_latest_value_st (st : FAState) (metric : String)
    (is_balance_sheet : Bool) : ℚ × FAState :=
  (get_latest_value st.income_stmt st.balance_sheet metric is_balance_sheet, st)

/-- State-passing form of the growth-rate helper; no attribute is
assigned, the coerced series is a fresh object. -/
def get_growth_rate_st (st : FAState) (metric : String)
    (is_balance_sheet : Bool) : Option ℚ × FAState :=
  (get_growth_rate st.income_stmt st.balance_sheet metric is_balance_sheet, st)

/-- State-passing form of get_trend_data; each stored series is a fresh
coerced copy of a column, never a view written back. -/
def get_trend_data_st (st : FAState) (metrics : List String)
    (fault : String → Bool) : List (String × TrendSeries) × FAState :=
  (get_trend_data st.income_stmt st.balance_sheet metrics fault, st)

/-- State-passing form of calculate_profitability_ratios, threading the
object state through its four extraction calls. -/
def calculate_profitability_st (st : FAState) (fault : Bool) :
    List (String × ℚ) × FAState :=
  if fault then
    ([("Profit Margin", 0), ("Return On Assets", 0), ("Return On Equity", 0)], st)
  else
    let (revenue, st1) := get_latest_value_st st "Revenue" false
    let (net_income, st2) := get_latest_value_st st1 "Net Income" false
    let (total_assets, st3) := get_latest_value_st st2 "Total Assets" true
    let (total_equity, st4) := get_latest_value_st st3 "Total Equity" true
    let profit_margin := if revenue ≠ 0 then net_income / revenue * 100 else 0
    let roa := if total_assets ≠ 0 then net_income / total_assets * 100 else 0
    let roe := if total_equity ≠ 0 then net_income / total_equity * 100 else 0
    ([("Profit Margin", round2 profit_margin),
      ("Return On Assets", round2 roa),
      ("Return On Equity", round2 roe)], st4)

/-- State-passing form of calculate_liquidity_ratios. -/
def calculate_liquidity_st (st : FAState) (fault : Bool) :
    List (String × ℚ) × FAState :=
  if fault then
    ([("Current Ratio", 0), ("Debt To Equity", 0)], st)
  else
    let (current_assets, st1) := get_latest_value_st st "Total Current Assets" true
    let (current_liabilities, st2) := get_latest_value_st st1 "Total Current Liabilities" true
    let (total_liabilities, st3) := get_latest_value_st st2 "Total Liabilities" true
    let (total_equity, st4) := get_latest_value_st st3 "Total Equity" true
    let current_ratio :=
      if current_liabilities ≠ 0 then current_assets / current_liabilities else 0
    let debt_to_equity :=
      if total_equity ≠ 0 then total_liabilities / total_equity else 0
    ([("Current Ratio", round2 current_ratio),
      ("Debt To Equity", round2 debt_to_equity)], st4)

/-- State-passing form of analyze, threading the object state through the
two category helpers, the three growth calls and the trend-data call, in
the order the source performs them.  The chart-rendering call consumes
the trend data without touching the tables. -/
def analyze_st (st : FAState) (prof_fault liq_fault top_fault : Bool) :
    AnalyzeResult × FAState :=
  if top_fault then (⟨[], [], []⟩, st)
  else
    let (profitability, st1) := calculate_profitability_st st prof_fault
    let (liquidity, st2) := calculate_liquidity_st st1 liq_fault
    let (revGrowth, st3) := get_growth_rate_st st2 "Revenue" false
    let (niGrowth, st4) := get_growth_rate_st st3 "Net Income" false
    let (assetGrowth, st5) := get_growth_rate_st st4 "Total Assets" true
    let (_, st6) := get_trend_data_st st5 ["Revenue"] (fun _ => false)
    ({ growthRates :=
         [("Revenue Growth", revGrowth),
          ("Net Income Growth", niGrowth),
          ("Asset Growth", assetGrowth)],
       profitability := profitability,
       liquidity := liquidity }, st6)

end FinAnalysis

namespace FinAnalysis

/-- An empty table, as produced for a statement the loader could not fill. -/
def dfEmpty : DataFrame := ⟨[], []⟩

/-- Scenario-1 income statement: totalRevenue = [1000, 900] (latest first)
and netIncome = [100, 50]. -/
def s1Income : DataFrame :=
  ⟨[2024, 2023],
   [("totalRevenue", [.num 1000, .num 900]), ("netIncome", [.num 100, .num 50])]⟩

/-- Scenario-3 table: the only revenue-like column is named with extra
punctuation, so no synonym is exactly equal to it. -/
def usdMillionsTable : DataFrame :=
  ⟨[2024], [("Revenue (USD millions)", [.num 5])]⟩

/-- An income statement whose revenue column matches the first growth
synonym exactly, with two periods. -/
def revIncome : DataFrame :=
  ⟨[2024, 2023], [("revenue", [.num 1000, .num 900])]⟩

/-- A small table with two periods stored most-recent first. -/
def newestFirstIncome : DataFrame :=
  ⟨[2024, 2023], [("revenue", [.num 10, .num 9])]⟩

/-- A balance sheet with no equity-like column. -/
def noEquityBalance : DataFrame :=
  ⟨[2024],
   [("totalAssets", [.num 500]), ("totalLiabilities", [.num 200]),
    ("totalCurrentAssets", [.num 100]), ("totalCurrentLiabilities", [.num 50])]⟩

/-- Rounding zero gives zero. -/
theorem round2_zero : round2 0 = 0 := by
  norm_num [round2, round_half_even]

/-- Every rounded value is an integer number of hundredths. -/
theorem round2_den (q : ℚ) : (round2 q * 100).den = 1 := by
  rw [round2, div_mul_cancel₀ _ (by norm_num : (100 : ℚ) ≠ 0)]
  exact Rat.den_intCast _

end FinAnalysis

namespace FinAnalysis

/-- First-match decomposition of column resolution, proved by induction
on the variation list: a resolved column splits the list into a failing
prefix and the resolved synonym. -/
theorem resolveColumn_first (df : DataFrame) (vs : List String) (c : String)
    (h : resolveColumn df vs = some c) :
    ∃ pre post, vs = pre ++ c :: post ∧ ∀ v ∈ pre, df.hasCol v = false := by
  induction vs with
  | nil => simp [resolveColumn] at h
  | cons v t ih =>
    rw [resolveColumn, List.find?_cons] at h
    by_cases hv : df.hasCol v
    · simp [hv] at h
      exact ⟨[], t, by simp [h], by simp⟩
    · simp [hv] at h
      obtain ⟨pre, post, hsplit, hpre⟩ := ih h
      refine ⟨v :: pre, post, by simp [hsplit], ?_⟩
      intro w hw
      rcases List.mem_cons.mp hw with rfl | hw
      · simpa using hv
      · exact hpre w hw

/-- Claim C1 (counterexample): the code has no substring fallback; with
the table whose only column is named Revenue (USD millions), resolution
of the metric Revenue fails outright and the latest-value helper returns
the 0.0 sentinel rather than the value 5 stored in that column. -/
theorem c1_counterexample :
    usdMillionsTable.hasCol "Revenue (USD millions)" = true ∧
    resolveColumn usdMillionsTable (latestVariations "Revenue") = none ∧
    get_latest_value usdMillionsTable dfEmpty "Revenue" false = 0 ∧
    get_latest_value usdMillionsTable dfEmpty "Revenue" false ≠ 5 := by
  refine ⟨by decide, by decide, by decide, by decide⟩

/-- Claim C1 (amended): for every table and variation list, column
resolution tries the synonyms in list order with an exact, case-sensitive
membership test and returns the first synonym that is a column name;
there is no case-insensitive matching and no substring fallback, so
resolution fails exactly when no synonym is literally a column name, and
a column named Revenue (USD millions) does not resolve for the metric
Revenue (the extractor returns the 0.0 sentinel for it). -/
theorem c1_exact_resolution (df : DataFrame) (vs : List String) :
    (resolveColumn df vs = none ↔ ∀ v ∈ vs, df.hasCol v = false) ∧
    (∀ c, resolveColumn df vs = some c → df.hasCol c = true ∧
      ∃ pre post, vs = pre ++ c :: post ∧ ∀ v ∈ pre, df.hasCol v = false) ∧
    get_latest_value usdMillionsTable dfEmpty "Revenue" false = 0 := by
  refine ⟨?_, ?_, by decide⟩
  · rw [resolveColumn, List.find?_eq_none]
    constructor
    · intro h v hv
      simpa using h v hv
    · intro h v hv
      simpa using h v hv
  · intro c hc
    exact ⟨List.find?_some hc, resolveColumn_first df vs c hc⟩

/-- Claim C1 witness: resolution on a concrete table returns the first
exactly-matching synonym together with its decomposition. -/
theorem c1_exact_resolution_witness :
    s1Income.hasCol "totalRevenue" = true ∧
    (∃ pre post, latestVariations "Revenue" = pre ++ "totalRevenue" :: post ∧
      ∀ v ∈ pre, s1Income.hasCol v = false) := by
  have h := (c1_exact_resolution s1Income (latestVariations "Revenue")).2.1
    "totalRevenue" (by decide)
  exact ⟨h.1, h.2⟩

end FinAnalysis

namespace FinAnalysis

/-- Value of the profitability helper on the Scenario-1 tables: the
latest-value extractor reaches totalRevenue through its second variation,
so the margin is 100 / 1000 * 100 = 10; assets and equity are absent and
default to 0. -/
theorem calculate_profitability_s1 :
    calculate_profitability s1Income dfEmpty false =
      [("Profit Margin", 10), ("Return On Assets", 0), ("Return On Equity", 0)] := by
  have h1 : get_latest_value s1Income dfEmpty "Revenue" false = 1000 := by decide
  have h2 : get_latest_value s1Income dfEmpty "Net Income" false = 100 := by decide
  have h3 : get_latest_value s1Income dfEmpty "Total Assets" true = 0 := by decide
  have h4 : get_latest_value s1Income dfEmpty "Total Equity" true = 0 := by decide
  simp only [calculate_profitability, h1, h2, h3, h4, Bool.false_eq_true, if_false]
  norm_num [round2, round_half_even]

/-- Claim C2 (counterexample): on the Scenario-1 income statement the
analysis reports revenue growth 0, not 11.11: the growth helper looks
only at its first synonym, revenue, which is not a column, although
totalRevenue is. -/
theorem c2_counterexample :
    (analyze s1Income dfEmpty false false false).growthRates.lookup "Revenue Growth"
      = some (some 0) ∧
    (0 : ℚ) ≠ 1111 / 100 := by
  constructor
  · decide
  · norm_num

/-- Claim C2 (amended): on an income statement whose only revenue-like
column is totalRevenue with values [1000, 900] and whose net-income
column netIncome holds [100, 50], the analysis produces profit margin
exactly 10.0 but revenue growth exactly 0.0, because the growth helper
consults only the first synonym (revenue) and misses totalRevenue. -/
theorem c2_scenario1 :
    (analyze s1Income dfEmpty false false false).profitability.lookup "Profit Margin"
      = some 10 ∧
    (analyze s1Income dfEmpty false false false).growthRates.lookup "Revenue Growth"
      = some (some 0) := by
  constructor
  · simp [analyze, calculate_profitability_s1]
  · decide

end FinAnalysis

namespace FinAnalysis

/-- Claim C3 (confirmed): once the growth helper has a resolved column,
the growth rate is ((latest - previous) / abs(previous)) * 100 from
series positions 0 and 1; with fewer than two periods, or a previous
value of zero, it is exactly 0.0 with no error; and on a single-period
table the latest value is still extracted correctly. -/
theorem c3_growth_guards (income balance : DataFrame) (metric : String)
    (is_bs : Bool) (c : String) (hc : growthCol metric = some c)
    (hmem : (if is_bs then balance else income).hasCol c = true) :
    ((((if is_bs then balance else income).getCol c).map toNumeric).length < 2 →
       get_growth_rate income balance metric is_bs = some 0) ∧
    (∀ cur prev rest,
       ((if is_bs then balance else income).getCol c).map toNumeric
         = some cur :: some prev :: rest →
       (prev = 0 → get_growth_rate income balance metric is_bs = some 0) ∧
       (prev ≠ 0 → get_growth_rate income balance metric is_bs =
          some ((cur - prev) / |prev| * 100))) ∧
    (∀ c2 q rest,
       resolveColumn (if is_bs then balance else income) (latestVariations metric) = some c2 →
       (if is_bs then balance else income).getCol c2 = CellVal.num q :: rest →
       get_latest_value income balance metric is_bs = q) := by
  refine ⟨?_, ?_, ?_⟩
  · intro hlen
    rcases hv : ((if is_bs then balance else income).getCol c).map toNumeric with
      _ | ⟨a, _ | ⟨b, t⟩⟩
    · simp [get_growth_rate, hc, hmem, hv]
    · simp [get_growth_rate, hc, hmem, hv]
    · rw [hv] at hlen
      simp at hlen
      omega
  · intro cur prev rest hv
    constructor
    · intro hprev
      simp [get_growth_rate, hc, hmem, hv, nanNeZero, hprev]
    · intro hprev
      simp [get_growth_rate, hc, hmem, hv, nanNeZero, hprev,
        nanSub, nanAbs, nanDiv, nanMul]
  · intro c2 q rest hres hcol
    simp [get_latest_value, hres, hcol, toNumeric]

/-- Claim C3 witness: the formula conjunct applied to a concrete
two-period table, and the latest-value conjunct applied to the same
table. -/
theorem c3_growth_guards_witness :
    get_growth_rate revIncome dfEmpty "Revenue" false
      = some ((1000 - 900) / |(900 : ℚ)| * 100) ∧
    get_latest_value revIncome dfEmpty "Revenue" false = 1000 := by
  have h := c3_growth_guards revIncome dfEmpty "Revenue" false "revenue"
    (by decide) (by decide)
  refine ⟨(h.2.1 1000 900 [] (by decide)).2 (by norm_num), ?_⟩
  exact h.2.2 "revenue" 1000 [CellVal.num 900] (by decide) (by decide)

end FinAnalysis

namespace FinAnalysis

/-- Claim C4 (confirmed): whenever a denominator extracts as 0.0 --
whether a genuine zero or the missing-column sentinel -- the guarded
conditional takes its else branch and the dependent ratio is exactly 0.0,
with no division performed. -/
theorem c4_zero_denominator_guards (income balance : DataFrame) :
    (get_latest_value income balance "Revenue" false = 0 →
      (calculate_profitability income balance false).lookup "Profit Margin" = some 0) ∧
    (get_latest_value income balance "Total Assets" true = 0 →
      (calculate_profitability income balance false).lookup "Return On Assets" = some 0) ∧
    (get_latest_value income balance "Total Equity" true = 0 →
      (calculate_profitability income balance false).lookup "Return On Equity" = some 0 ∧
      (calculate_liquidity income balance false).lookup "Debt To Equity" = some 0) ∧
    (get_latest_value income balance "Total Current Liabilities" true = 0 →
      (calculate_liquidity income balance false).lookup "Current Ratio" = some 0) := by
  refine ⟨?_, ?_, ?_, ?_⟩
  · intro h
    simp [calculate_profitability, h, round2_zero, List.lookup]
  · intro h
    simp [calculate_profitability, h, round2_zero, List.lookup]
  · intro h
    constructor
    · simp [calculate_profitability, h, round2_zero, List.lookup]
    · simp [calculate_liquidity, h, round2_zero, List.lookup]
  · intro h
    simp [calculate_liquidity, h, round2_zero, List.lookup]

/-- Claim C4 witness: a balance sheet with no equity-like column makes
the equity denominator the 0.0 sentinel, so Return on Equity and
Debt-to-Equity are both exactly 0.0. -/
theorem c4_zero_denominator_guards_witness :
    (calculate_profitability s1Income noEquityBalance false).lookup "Return On Equity"
      = some 0 ∧
    (calculate_liquidity s1Income noEquityBalance false).lookup "Debt To Equity"
      = some 0 :=
  (c4_zero_denominator_guards s1Income noEquityBalance).2.2.1 (by decide)

end FinAnalysis

namespace FinAnalysis

/-- Growth value of the revIncome table: (1000 - 900) / 900 * 100 = 100/9,
stored by analyze without any rounding. -/
theorem get_growth_rate_revIncome :
    get_growth_rate revIncome dfEmpty "Revenue" false = some (100 / 9) := by
  have hv : (revIncome.getCol "revenue").map toNumeric = [some 1000, some 900] := by decide
  have hc : growthCol "Revenue" = some "revenue" := by decide
  have hh : revIncome.hasCol "revenue" = true := by decide
  simp [get_growth_rate, hc, hh, hv, nanNeZero, nanSub, nanAbs, nanDiv, nanMul]
  norm_num

/-- Claim C5 (counterexample): the Revenue Growth entry of the analyze
result holds the raw value 100/9 = 11.111..., which is not equal to its
own two-decimal rounding, so growth rates are not rounded at the result
boundary. -/
theorem c5_counterexample :
    (analyze revIncome dfEmpty false false false).growthRates.lookup "Revenue Growth"
      = some (some (100 / 9)) ∧
    round2 (100 / 9) ≠ 100 / 9 := by
  constructor
  · simp [analyze, get_growth_rate_revIncome]
  · norm_num [round2, round_half_even]

/-- Claim C5 (amended): the profitability and liquidity entries of the
analyze result are rounded to two decimals at the result-set boundary
(every stored value is a whole number of hundredths, and a raw ratio of
23.9651 rounds to 23.97), but the growth-rate entries are stored exactly
as computed, without rounding. -/
theorem c5_rounding_boundary (income balance : DataFrame) (pf lf : Bool) :
    (∀ p ∈ (analyze income balance pf lf false).profitability, (p.2 * 100).den = 1) ∧
    (∀ p ∈ (analyze income balance pf lf false).liquidity, (p.2 * 100).den = 1) ∧
    round2 (239651 / 10000) = 2397 / 100 := by
  refine ⟨?_, ?_, by norm_num [round2, round_half_even]⟩
  · intro p hp
    rcases pf with _ | _
    · simp [analyze, calculate_profitability] at hp
      rcases hp with h | h | h <;> rw [h] <;> exact round2_den _
    · simp [analyze, calculate_profitability] at hp
      rcases hp with h | h | h <;> rw [h] <;> norm_num
  · intro p hp
    rcases lf with _ | _
    · simp [analyze, calculate_liquidity] at hp
      rcases hp with h | h <;> rw [h] <;> exact round2_den _
    · simp [analyze, calculate_liquidity] at hp
      rcases hp with h | h <;> rw [h] <;> norm_num

/-- Claim C5 witness: the Profit Margin entry computed for the Scenario-1
tables is a whole number of hundredths. -/
theorem c5_rounding_boundary_witness :
    (("Profit Margin", (10 : ℚ)).2 * 100).den = 1 := by
  refine (c5_rounding_boundary s1Income dfEmpty false false).1 ("Profit Margin", 10) ?_
  simp [analyze, calculate_profitability_s1]

end FinAnalysis

namespace FinAnalysis

/-- Claim C6 (counterexample): with a failure inside the profitability
computation, the analyze result maps Profitability to the zero-filled
three-key mapping of its except clause, which is not the empty mapping
the claim describes. -/
theorem c6_counterexample :
    (analyze dfEmpty dfEmpty true false false).profitability =
      [("Profit Margin", 0), ("Return On Assets", 0), ("Return On Equity", 0)] ∧
    (analyze dfEmpty dfEmpty true false false).profitability ≠ [] := by
  refine ⟨by decide, by decide⟩

/-- Claim C6 (amended): a failure caught inside the profitability or
liquidity computation degrades that category to its zero-filled default
mapping (constant keys, all values 0) while the other categories are
computed from the inputs exactly as without the failure; empty category
mappings arise only from the top-level analyze handler, which replaces
all three categories with empty mappings at once. -/
theorem c6_failure_isolation (income balance : DataFrame) (pf lf : Bool) :
    (analyze income balance true lf false).profitability =
      [("Profit Margin", 0), ("Return On Assets", 0), ("Return On Equity", 0)] ∧
    (analyze income balance pf true false).liquidity =
      [("Current Ratio", 0), ("Debt To Equity", 0)] ∧
    (analyze income balance true lf false).growthRates =
      (analyze income balance false false false).growthRates ∧
    (analyze income balance true lf false).liquidity =
      (analyze income balance false lf false).liquidity ∧
    (analyze income balance pf true false).profitability =
      (analyze income balance pf false false).profitability ∧
    (analyze income balance pf true false).growthRates =
      (analyze income balance false false false).growthRates ∧
    analyze income balance pf lf true = ⟨[], [], []⟩ := by
  refine ⟨?_, ?_, ?_, ?_, ?_, ?_, ?_⟩ <;>
    simp [analyze, calculate_profitability, calculate_liquidity]

end FinAnalysis

namespace FinAnalysis

/-- Claim C7 (confirmed): extraction is total and falls back to no-data
sentinels.  An unresolved column makes the latest-value helper return
0.0 and leaves the trend mapping without an entry for the metric (its
extracted series is empty); an exception inside the latest-value body is
caught and converted to the same 0.0 sentinel, and an exception inside a
trend iteration is caught and the metric skipped. -/
theorem c7_extraction_sentinels (income balance : DataFrame) (metric : String)
    (is_bs : Bool) :
    (resolveColumn (if is_bs then balance else income) (latestVariations metric) = none →
      get_latest_value income balance metric is_bs = 0) ∧
    get_latest_value_caught income balance metric is_bs true = 0 ∧
    (resolveColumn (if is_balance_metric metric then balance else income)
        ((trend_metric_variations.lookup metric).getD [metric.toLower]) = none →
      (get_trend_data income balance [metric] (fun _ => false)).lookup metric = none) ∧
    (get_trend_data income balance [metric] (fun _ => true)).lookup metric = none := by
  refine ⟨?_, ?_, ?_, ?_⟩
  · intro h
    simp [get_latest_value, h]
  · simp [get_latest_value_caught]
  · intro h
    simp [get_trend_data, h]
  · simp [get_trend_data]

/-- Claim C7 witness: a balance sheet with no equity-like column gives
the 0.0 sentinel for Total Equity and no trend entry for it. -/
theorem c7_extraction_sentinels_witness :
    get_latest_value s1Income noEquityBalance "Total Equity" true = 0 ∧
    (get_trend_data s1Income noEquityBalance ["Total Equity"] (fun _ => false)).lookup
      "Total Equity" = none := by
  have h := c7_extraction_sentinels s1Income noEquityBalance "Total Equity" true
  exact ⟨h.1 (by decide), h.2.2.1 (by decide)⟩

/-- Claim C8 (counterexample): the trend series for a table stored most
recent first is returned with its stored period index [2024, 2023],
which is not ascending, so the series is not sorted oldest-first before
being returned. -/
theorem c8_counterexample :
    (get_trend_data newestFirstIncome dfEmpty ["Revenue"] (fun _ => false)).lookup
      "Revenue" = some ⟨[2024, 2023], [some 10, some 9]⟩ ∧
    ¬ List.Sorted (· ≤ ·) [(2024 : Int), 2023] := by
  refine ⟨by decide, by decide⟩

/-- Claim C8 (amended): the latest-value helper reads the cell at index
position 0 of the resolved column (most-recent-first ordering) and
coerces it; the trend series is returned with the table's stored period
index and stored row order, with no ascending sort applied during
extraction (the only sort-by-date in the repository happens later, in the
chart-rendering collaborator). -/
theorem c8_position_and_order (income balance : DataFrame) (metric : String)
    (is_bs : Bool) (c : String) :
    (resolveColumn (if is_bs then balance else income) (latestVariations metric) = some c →
      get_latest_value income balance metric is_bs =
        ((((if is_bs then balance else income).getCol c).head?.bind toNumeric).getD 0)) ∧
    (resolveColumn (if is_balance_metric metric then balance else income)
        ((trend_metric_variations.lookup metric).getD [metric.toLower]) = some c →
      c ≠ "" →
      (((if is_balance_metric metric then balance else income).getCol c).map
        toNumeric).isEmpty = false →
      ((((if is_balance_metric metric then balance else income).getCol c).map
        toNumeric).all fun v => v.isNone) = false →
      (get_trend_data income balance [metric] (fun _ => false)).lookup metric =
        some ⟨(if is_balance_metric metric then balance else income).index,
              ((if is_balance_metric metric then balance else income).getCol c).map
                toNumeric⟩) := by
  constructor
  · intro h
    rcases hcell : ((if is_bs then balance else income).getCol c).head? with _ | cell
    · simp [get_latest_value, h, hcell]
    · rcases hcv : toNumeric cell with _ | q
      · simp [get_latest_value, h, hcell, hcv]
      · simp [get_latest_value, h, hcell, hcv]
  · intro h hne hemp hnan
    simp only [List.isEmpty_eq_false] at hemp
    simp only [List.all_eq_false] at hnan
    simp [get_trend_data, h, hne, hemp]
    rw [if_pos]
    · simp
    · constructor
      · intro hcol
        rw [hcol] at hemp
        simp at hemp
      · obtain ⟨x, hx, hxn⟩ := hnan
        obtain ⟨a, ha, rfl⟩ := List.mem_map.mp hx
        exact ⟨a, ha, by simpa using hxn⟩

/-- Claim C8 witness: on a concrete most-recent-first table, the latest
value is taken from row 0 and the returned series keeps the stored
order. -/
theorem c8_position_and_order_witness :
    get_latest_value newestFirstIncome dfEmpty "Revenue" false =
      (((newestFirstIncome.getCol "revenue").head?.bind toNumeric).getD 0) ∧
    (get_trend_data newestFirstIncome dfEmpty ["Revenue"] (fun _ => false)).lookup
      "Revenue" = some ⟨newestFirstIncome.index,
        (newestFirstIncome.getCol "revenue").map toNumeric⟩ := by
  have h := c8_position_and_order newestFirstIncome dfEmpty "Revenue" false "revenue"
  exact ⟨h.1 (by decide), h.2 (by decide) (by decide) (by decide) (by decide)⟩

end FinAnalysis

namespace FinAnalysis

/-- Claim C9 (confirmed): for every pair of input tables, and on the
exception path as well, the profitability mapping has exactly the keys
Profit Margin, Return On Assets, Return On Equity and the liquidity
mapping exactly Current Ratio, Debt To Equity, in that order. -/
theorem c9_constant_key_sets (income balance : DataFrame) (fault : Bool) :
    (calculate_profitability income balance fault).map Prod.fst =
      ["Profit Margin", "Return On Assets", "Return On Equity"] ∧
    (calculate_liquidity income balance fault).map Prod.fst =
      ["Current Ratio", "Debt To Equity"] := by
  rcases fault with _ | _ <;>
    simp [calculate_profitability, calculate_liquidity]

/-- Claim C10 (confirmed): a full analyze run returns the stored tables
unchanged -- every extraction builds fresh coerced series and no step of
the state-passing embedding writes back into the object state -- and the
result agrees with the direct function of the two tables. -/
theorem c10_tables_unchanged (st : FAState) (pf lf tf : Bool) :
    (analyze_st st pf lf tf).2 = st ∧
    (analyze_st st pf lf tf).1 =
      analyze st.income_stmt st.balance_sheet pf lf tf := by
  rcases tf with _ | _ <;> rcases pf with _ | _ <;> rcases lf with _ | _ <;>
    simp [analyze_st, analyze, calculate_profitability_st, calculate_profitability,
      calculate_liquidity_st, calculate_liquidity, get_latest_value_st,
      get_growth_rate_st, get_trend_data_st]

end FinAnalysis
